import Mathlib

/-!
Verification of the Sanctuary of Nature backend (`main.py`, `schemas.py`).

The embedding models documents as finite association lists from field
names to values, the document store as a flat list of
(collection name, document) pairs, and each HTTP handler as a pure
function over that store. The `database` module is absent from the
repository sources, so its two operations are modelled from the spec
(section 4.1, Document Store Adapter).
-/

namespace Sanctuary

/-- A value stored in a document field: a string, a number, a list of
strings, or null (Python `None` serialized by the store). Numbers are
modelled as
rationals, covering both the integer `duration_days` and the float
`price_usd` without loss for the order comparisons the code performs. -/
inductive Value where
  | str (s : String)
  | num (q : Rat)
  | strs (l : List String)
  | null
deriving DecidableEq, Repr

/-- A single filter constraint: exact match against a value, or an
at-most (`$lte`) bound against a number, as built by the callers in
`main.py`. -/
inductive Constraint where
  | eq (v : Value)
  | lte (bound : Rat)
deriving DecidableEq, Repr

/-- A document: an association list from field names to values. -/
abbrev Doc : Type := List (String × Value)

/-- A filter: a mapping from field names to constraints, kept in
insertion order exactly as the Python dict is built. -/
abbrev Filter : Type := List (String × Constraint)

/-- The document store: a flat list of (collection name, document)
pairs; inserts append at the end. -/
abbrev Store : Type := List (String × Doc)

/-- First value bound to a field name in a document, if any. -/
def lookupField (d : Doc) (f : String) : Option Value :=
  (d.find? (fun kv => kv.1 = f)).map (fun kv => kv.2)

/-- Whether a stored value satisfies one constraint. An `lte` bound is
satisfied only by a numeric value below it; a constraint on a value of
the wrong shape matches nothing (spec 4.1: garbage filters simply match
nothing). -/
def valueMatches (v : Value) (c : Constraint) : Bool :=
  match c with
  | Constraint.eq w => decide (v = w)
  | Constraint.lte bound =>
      match v with
      | Value.num x => decide (x ≤ bound)
      | _ => false

/-- Whether a document satisfies every constraint of a filter; a
constrained field that is absent from the document fails the filter. -/
def docMatches (d : Doc) (q : Filter) : Bool :=
  q.all (fun fc =>
    match lookupField d fc.1 with
    | some v => valueMatches v fc.2
    | none => false)

/-- Modelled from the spec: the `database` module is not among the
repository sources. Spec 4.1: `getDocuments(collectionName, filter,
limit)` returns up to `limit` documents from the named collection
matching the equality/comparison filter. -/
def get_documents (coll : String) (q : Filter) (limit : Nat) (s : Store) : List Doc :=
  (((s.filter (fun cd => cd.1 = coll)).map (fun cd => cd.2)).filter
    (fun d => docMatches d q)).take limit

/-- Modelled from the spec: the `database` module is not among the
repository sources. Spec 4.1: the default result cap of `getDocuments`
when the caller passes no limit ("default cap, e.g. 100"). -/
def defaultLimit : Nat := 100

/-- Modelled from the spec: the `database` module is not among the
repository sources. Spec 4.1: `createDocument(collectionName, record)`
serializes the record and inserts it into the named collection. The
store-generated identifier is opaque and not modelled. -/
def create_document (coll : String) (d : Doc) (s : Store) : Store :=
  s ++ [(coll, d)]

/-- Python truthiness of an optional string: `None` and `""` are falsy. -/
def truthyStr : Option String → Bool
  | some s => s ≠ ""
  | none => false

/-- Python truthiness of an optional integer: `None` and `0` are falsy. -/
def truthyInt : Option Int → Bool
  | some n => n ≠ 0
  | none => false

/-- The `QuizInput` request model of `main.py` (all fields optional). -/
structure QuizInput where
  energy : Option String := none
  preferred_nature : Option String := none
  budget : Option Rat := none
  duration : Option Int := none
  goals : Option String := none
deriving DecidableEq, Repr

/-- The `Preference` model of `schemas.py` (all fields optional). -/
structure Preference where
  energy : Option String := none
  preferred_nature : Option String := none
  budget : Option Rat := none
  duration : Option Int := none
  goals : Option String := none
deriving DecidableEq, Repr

/-- The filter built by `recommend` (main.py lines 134-140): truthiness
tests on `preferred_nature` and `duration`, an explicit `is not None`
test on `budget`; keys in Python dict insertion order. -/
def recommendQuery (pref : QuizInput) : Filter :=
  (match pref.preferred_nature with
   | some s => if s = "" then [] else [("nature_type", Constraint.eq (Value.str s))]
   | none => []) ++
  (match pref.duration with
   | some d => if d = 0 then [] else [("duration_days", Constraint.lte (d : Rat))]
   | none => []) ++
  (match pref.budget with
   | some b => [("price_usd", Constraint.lte b)]
   | none => [])

/-- The guidance text chosen by `recommend` (main.py lines 145-155). -/
def spiritNote (energy : Option String) : String :=
  if energy = some "calm" then
    "The waters are still today; gentle breath and soft horizons call you."
  else if energy = some "transformative" then
    "Winds of change swirl around you; trust the metamorphosis."
  else if energy = some "adventurous" then
    "Peaks and tides await; your courage is the compass."
  else if energy = some "restorative" then
    "Let the earth hold you; sleep, nourish, and renew."
  else
    "Nature listens. Share more, and I\u2019ll guide you further."

/-- The response shape of `recommend` and `quiz`. -/
structure RecResult where
  «matches» : List Doc
  spirit_message : String
deriving DecidableEq, Repr

/-- The `POST /api/recommend` handler (main.py lines 129-160): queries
the retreat collection with the built filter capped at 8 results, and
attaches the guidance text. -/
def recommend (pref : QuizInput) (s : Store) : RecResult :=
  { «matches» := get_documents "retreat" (recommendQuery pref) 8 s
    spirit_message := spiritNote pref.energy }

/-- The field-wise conversion `QuizInput(**pref.model_dump())` performed
by `quiz` (main.py line 168). -/
def prefToQuizInput (p : Preference) : QuizInput :=
  { energy := p.energy
    preferred_nature := p.preferred_nature
    budget := p.budget
    duration := p.duration
    goals := p.goals }

/-- The `POST /api/quiz` handler (main.py lines 164-170): forwards the
preference to `recommend`. -/
def quiz (p : Preference) (s : Store) : RecResult :=
  recommend (prefToQuizInput p) s

/-- The `Host` model of `schemas.py` (lines 10-15). -/
structure Host where
  name : String
  bio : Option String := none
  specialties : List String := []
  website : Option String := none
  location : Option String := none
deriving DecidableEq, Repr

/-- The `Location` model of `schemas.py` (lines 17-22). -/
structure Location where
  title : String
  region : String
  nature_type : String
  description : Option String := none
  image_url : Option String := none
deriving DecidableEq, Repr

/-- The `Retreat` model of `schemas.py` (lines 24-34). The range
constraints `duration_days ∈ [1,60]` and `price_usd ≥ 0` are checked by
`retreatValid`, not baked into the type, so that out-of-range payloads
can be reasoned about. -/
structure Retreat where
  title : String
  description : Option String := none
  host_name : String
  location_title : String
  nature_type : String
  focus : List String := []
  duration_days : Int
  price_usd : Rat
  start_date : Option String := none
  image_url : Option String := none
deriving DecidableEq, Repr

/-- The `Message` model of `schemas.py` (lines 36-39). -/
structure Message where
  author : String
  content : String
  topic : Option String := none
deriving DecidableEq, Repr

/-- Pydantic range validation of a `Retreat` body (schemas.py lines
31-32): `duration_days` has `ge=1, le=60` and `price_usd` has `ge=0`. -/
def retreatValid (r : Retreat) : Bool :=
  decide (1 ≤ r.duration_days) && decide (r.duration_days ≤ 60) && decide (0 ≤ r.price_usd)

/-- Serialization of an optional string field (`None` becomes null). -/
def optStr : Option String → Value
  | some s => Value.str s
  | none => Value.null

/-- Serialization of a `Host` to a store document. -/
def hostToDoc (h : Host) : Doc :=
  [("name", Value.str h.name), ("bio", optStr h.bio),
   ("specialties", Value.strs h.specialties),
   ("website", optStr h.website), ("location", optStr h.location)]

/-- Serialization of a `Location` to a store document. -/
def locationToDoc (l : Location) : Doc :=
  [("title", Value.str l.title), ("region", Value.str l.region),
   ("nature_type", Value.str l.nature_type),
   ("description", optStr l.description), ("image_url", optStr l.image_url)]

/-- Serialization of a `Retreat` to a store document. -/
def retreatToDoc (r : Retreat) : Doc :=
  [("title", Value.str r.title), ("description", optStr r.description),
   ("host_name", Value.str r.host_name),
   ("location_title", Value.str r.location_title),
   ("nature_type", Value.str r.nature_type), ("focus", Value.strs r.focus),
   ("duration_days", Value.num (r.duration_days : Rat)),
   ("price_usd", Value.num r.price_usd),
   ("start_date", optStr r.start_date), ("image_url", optStr r.image_url)]

/-- Serialization of a `Message` to a store document. -/
def messageToDoc (m : Message) : Doc :=
  [("author", Value.str m.author), ("content", Value.str m.content),
   ("topic", optStr m.topic)]

/-- The `POST /api/hosts` handler (main.py lines 58-64). -/
def create_host (h : Host) (s : Store) : Store :=
  create_document "host" (hostToDoc h) s

/-- The `GET /api/hosts` handler (main.py lines 66-71). -/
def list_hosts (s : Store) : List Doc :=
  get_documents "host" [] defaultLimit s

/-- The `POST /api/locations` handler (main.py lines 73-79). -/
def create_location (l : Location) (s : Store) : Store :=
  create_document "location" (locationToDoc l) s

/-- The `GET /api/locations` handler (main.py lines 81-86). -/
def list_locations (s : Store) : List Doc :=
  get_documents "location" [] defaultLimit s

/-- The `POST /api/retreats` handler body (main.py lines 88-94),
reached only after schema validation. -/
def create_retreat (r : Retreat) (s : Store) : Store :=
  create_document "retreat" (retreatToDoc r) s

/-- The full `POST /api/retreats` endpoint: FastAPI validates the body
against the `Retreat` schema before the handler runs, so an invalid
body never reaches `create_retreat` and the store is untouched. The
boolean records whether the handler (and hence the storage insert) was
invoked. -/
def post_api_retreats (r : Retreat) (s : Store) : Store × Bool :=
  if retreatValid r then (create_retreat r s, true) else (s, false)

/-- The `GET /api/retreats` handler (main.py lines 96-102): the filter
is `[("nature_type", v)]` when the parameter is truthy (present and
non-empty), else empty, by the Python conditional expression
on line 99. -/
def list_retreats (nature_type : Option String) (s : Store) : List Doc :=
  let filter_q : Filter :=
    match nature_type with
    | some v => if v = "" then [] else [("nature_type", Constraint.eq (Value.str v))]
    | none => []
  get_documents "retreat" filter_q defaultLimit s

/-- The `POST /api/messages` handler (main.py lines 104-110). -/
def create_message (m : Message) (s : Store) : Store :=
  create_document "message" (messageToDoc m) s

/-- The `GET /api/messages` handler (main.py lines 112-118): same
truthiness pattern as `list_retreats`, on the `topic` parameter. -/
def list_messages (topic : Option String) (s : Store) : List Doc :=
  let filter_q : Filter :=
    match topic with
    | some v => if v = "" then [] else [("topic", Constraint.eq (Value.str v))]
    | none => []
  get_documents "message" filter_q defaultLimit s

/-- State of the module-level `db` handle as seen by `/test`: absent
(`db is None`), broken (touching the handle raises, caught by the outer
`except` at main.py lines 49-50), or available with a possibly-failing
`list_collection_names()` call (inner `except`, lines 45-46). -/
inductive DbHandle where
  | noDb
  | broken (e : String)
  | available (name : Option String) (collections : Except String (List String))
deriving Repr

/-- The two environment variables `/test` reports on; `os.getenv`
yields `none` when unset, and truthiness treats `""` as unset. -/
structure Env where
  database_url : Option String := none
  database_name : Option String := none
deriving DecidableEq, Repr

/-- The diagnostic object returned by `GET /test`; the six fields are
always present. -/
structure TestResponse where
  backend : String
  database : String
  database_url : String
  database_name : String
  connection_status : String
  collections : List String
deriving DecidableEq, Repr

/-- The `GET /test` handler (main.py lines 24-54) as a total function:
every failure mode of the database handle is rendered into the
`database` status string, `collections` is truncated to 10 entries
(line 43), and lines 52-53 overwrite `database_url`/`database_name`
from the environment unconditionally. -/
def test_database (db : DbHandle) (env : Env) : TestResponse :=
  { backend := "\u2705 Running"
    database :=
      match db with
      | DbHandle.noDb => "\u26A0\uFE0F  Available but not initialized"
      | DbHandle.broken e => "\u274C Error: " ++ e.take 100
      | DbHandle.available _ (Except.ok _) => "\u2705 Connected & Working"
      | DbHandle.available _ (Except.error e) =>
          "\u26A0\uFE0F  Connected but Error: " ++ e.take 80
    database_url := if truthyStr env.database_url then "\u2705 Set" else "\u274C Not Set"
    database_name := if truthyStr env.database_name then "\u2705 Set" else "\u274C Not Set"
    connection_status :=
      match db with
      | DbHandle.available _ _ => "Connected"
      | _ => "Not Connected"
    collections :=
      match db with
      | DbHandle.available _ (Except.ok cs) => cs.take 10
      | _ => [] }

/-- One inbound request to any exposed endpoint of the application. -/
inductive Op where
  | readRoot
  | testDb
  | createHost (h : Host)
  | listHosts
  | createLocation (l : Location)
  | listLocations
  | createRetreat (r : Retreat)
  | listRetreats (nature_type : Option String)
  | createMessage (m : Message)
  | listMessages (topic : Option String)
  | recommendOp (p : QuizInput)
  | quizOp (p : Preference)
deriving DecidableEq, Repr

/-- The effect of one request on the persistent store: the four create
endpoints insert through `create_document`; every other endpoint only
reads. -/
def step (op : Op) (s : Store) : Store :=
  match op with
  | Op.createHost h => create_host h s
  | Op.createLocation l => create_location l s
  | Op.createRetreat r => (post_api_retreats r s).1
  | Op.createMessage m => create_message m s
  | _ => s

/-- The store after a sequence of requests. -/
def runOps (ops : List Op) (s : Store) : Store :=
  ops.foldl (fun t op => step op t) s

/-! ## Helper lemmas -/

/-- Every document returned by `get_documents` satisfies the filter. -/
theorem docMatches_of_mem_get_documents {d : Doc} {c : String} {q : Filter}
    {lim : Nat} {s : Store} (h : d ∈ get_documents c q lim s) :
    docMatches d q = true := by
  unfold get_documents at h
  have h1 := List.take_subset _ _ h
  exact (List.mem_filter.mp h1).2

/-- A document passing a singleton exact-match filter holds exactly the
filtered value at the filtered field. -/
theorem lookupField_of_docMatches_eq {d : Doc} {f : String} {w : Value}
    (h : docMatches d [(f, Constraint.eq w)] = true) :
    lookupField d f = some w := by
  unfold docMatches at h
  simp only [List.all_cons, List.all_nil, Bool.and_true] at h
  cases hl : lookupField d f with
  | none => rw [hl] at h; simp at h
  | some v =>
      rw [hl] at h
      unfold valueMatches at h
      simp only [decide_eq_true_eq] at h
      rw [h]

/-- One request leaves the store unchanged or appends one document. -/
theorem step_extends (op : Op) (s : Store) :
    ∃ t, t.length ≤ 1 ∧ step op s = s ++ t := by
  cases op with
  | createHost h => exact ⟨_, by simp, rfl⟩
  | createLocation l => exact ⟨_, by simp, rfl⟩
  | createMessage m => exact ⟨_, by simp, rfl⟩
  | createRetreat r =>
      by_cases hv : retreatValid r
      · exact ⟨[("retreat", retreatToDoc r)], by simp,
          by simp [step, post_api_retreats, hv, create_retreat, create_document]⟩
      · exact ⟨[], by simp, by simp [step, post_api_retreats, hv]⟩
  | readRoot => exact ⟨[], by simp, by simp [step]⟩
  | testDb => exact ⟨[], by simp, by simp [step]⟩
  | listHosts => exact ⟨[], by simp, by simp [step]⟩
  | listLocations => exact ⟨[], by simp, by simp [step]⟩
  | listRetreats nt => exact ⟨[], by simp, by simp [step]⟩
  | listMessages t => exact ⟨[], by simp, by simp [step]⟩
  | recommendOp p => exact ⟨[], by simp, by simp [step]⟩
  | quizOp p => exact ⟨[], by simp, by simp [step]⟩

/-- Running a sequence of requests only ever appends to the store. -/
theorem runOps_extends (ops : List Op) (s : Store) :
    ∃ t, runOps ops s = s ++ t := by
  induction ops generalizing s with
  | nil => exact ⟨[], by simp [runOps]⟩
  | cons op rest ih =>
      obtain ⟨t1, _, h1⟩ := step_extends op s
      obtain ⟨t2, h2⟩ := ih (step op s)
      refine ⟨t1 ++ t2, ?_⟩
      have : runOps (op :: rest) s = runOps rest (step op s) := rfl
      rw [this, h2, h1, List.append_assoc]

/-- The nature-type constraint appears in the recommend query exactly
when `preferred_nature` is truthy (present and non-empty). -/
theorem mem_recommendQuery_nature (p : QuizInput) (v : String) :
    ("nature_type", Constraint.eq (Value.str v)) ∈ recommendQuery p ↔
      (p.preferred_nature = some v ∧ v ≠ "") := by
  obtain ⟨e, n, bu, du, g⟩ := p
  unfold recommendQuery
  rcases n with _ | nv <;> rcases du with _ | dv <;> rcases bu with _ | bv <;>
    simp_all
  all_goals aesop

/-- The duration constraint appears in the recommend query exactly when
`duration` is truthy (present and non-zero). -/
theorem mem_recommendQuery_duration (p : QuizInput) (d : Int) :
    ("duration_days", Constraint.lte (d : Rat)) ∈ recommendQuery p ↔
      (p.duration = some d ∧ d ≠ 0) := by
  obtain ⟨e, n, bu, du, g⟩ := p
  unfold recommendQuery
  rcases n with _ | nv <;> rcases du with _ | dv <;> rcases bu with _ | bv <;>
    simp_all
  all_goals aesop

/-- The price constraint appears in the recommend query exactly when
`budget` is present, zero included. -/
theorem mem_recommendQuery_budget (p : QuizInput) (b : Rat) :
    ("price_usd", Constraint.lte b) ∈ recommendQuery p ↔ p.budget = some b := by
  obtain ⟨e, n, bu, du, g⟩ := p
  unfold recommendQuery
  rcases n with _ | nv <;> rcases du with _ | dv <;> rcases bu with _ | bv <;>
    simp_all
  all_goals aesop

/-- The recommend query constrains no field other than the three the
code writes. -/
theorem mem_recommendQuery_keys (p : QuizInput) (f : String) (c : Constraint)
    (h : (f, c) ∈ recommendQuery p) :
    f = "nature_type" ∨ f = "duration_days" ∨ f = "price_usd" := by
  obtain ⟨e, n, bu, du, g⟩ := p
  unfold recommendQuery at h
  rcases n with _ | nv <;> rcases du with _ | dv <;> rcases bu with _ | bv <;>
    simp_all
  all_goals tauto

/-! ## Claim theorems -/

/-- C1 (counterexample): the claim says each of the three constraints
is issued if and only if the corresponding preference field is present,
but at the concrete input with `preferred_nature = ""` and
`duration = 0` (both present), the code's truthiness tests issue no
constraint at all, so the presence iff fails. -/
theorem recommend_filter_presence_counterexample :
    ¬(((∃ c, ("nature_type", c) ∈
          recommendQuery { preferred_nature := some "", duration := some 0 }) ↔
        ({ preferred_nature := some "", duration := some 0 } :
          QuizInput).preferred_nature.isSome) ∧
      ((∃ c, ("duration_days", c) ∈
          recommendQuery { preferred_nature := some "", duration := some 0 }) ↔
        ({ preferred_nature := some "", duration := some 0 } :
          QuizInput).duration.isSome)) := by
  intro h
  obtain ⟨c, hc⟩ := h.2.mpr (by simp)
  simp [recommendQuery] at hc

/-- C1 (amended): the recommend query carries the exact-match
nature-type constraint iff `preferred_nature` is present and non-empty,
the at-most duration constraint iff `duration` is present and non-zero,
and the at-most price constraint iff `budget` is present (zero
included); no other field is constrained; and the query result is
capped at 8. -/
theorem recommend_filter_characterization (p : QuizInput) (v : String)
    (d : Int) (b : Rat) (s : Store) :
    (("nature_type", Constraint.eq (Value.str v)) ∈ recommendQuery p ↔
      (p.preferred_nature = some v ∧ v ≠ "")) ∧
    (("duration_days", Constraint.lte (d : Rat)) ∈ recommendQuery p ↔
      (p.duration = some d ∧ d ≠ 0)) ∧
    (("price_usd", Constraint.lte b) ∈ recommendQuery p ↔ p.budget = some b) ∧
    (∀ f c, (f, c) ∈ recommendQuery p →
      f = "nature_type" ∨ f = "duration_days" ∨ f = "price_usd") ∧
    (recommend p s).«matches».length ≤ 8 := by
  refine ⟨mem_recommendQuery_nature p v, mem_recommendQuery_duration p d,
    mem_recommendQuery_budget p b, mem_recommendQuery_keys p, ?_⟩
  unfold recommend get_documents
  exact List.length_take_le _ _

/-- Witness for the amended C1 at concrete inputs: a present non-empty
nature and a present budget produce their constraints, and the match
list of a concrete query is within the cap. -/
theorem recommend_filter_characterization_witness :
    (("nature_type", Constraint.eq (Value.str "forest")) ∈
      recommendQuery { preferred_nature := some "forest", budget := some 100 }) ∧
    (("price_usd", Constraint.lte 100) ∈
      recommendQuery { preferred_nature := some "forest", budget := some 100 }) ∧
    (recommend { preferred_nature := some "forest", budget := some 100 }
      []).«matches».length ≤ 8 :=
  ⟨(recommend_filter_characterization
      { preferred_nature := some "forest", budget := some 100 } "forest" 1 100
      []).1.mpr ⟨rfl, by decide⟩,
   (recommend_filter_characterization
      { preferred_nature := some "forest", budget := some 100 } "forest" 1 100
      []).2.2.1.mpr rfl,
   (recommend_filter_characterization
      { preferred_nature := some "forest", budget := some 100 } "forest" 1 100
      []).2.2.2.2⟩

/-- C2: when `budget` is `0`, the recommend query still carries the
constraint `price_usd ≤ 0`; a zero budget is not treated as absent
(main.py line 139 tests `is not None`, not truthiness). -/
theorem budget_zero_constrains_price (p : QuizInput) (h : p.budget = some 0) :
    ("price_usd", Constraint.lte 0) ∈ recommendQuery p := by
  obtain ⟨e, n, bu, du, g⟩ := p
  simp only at h
  subst h
  unfold recommendQuery
  simp

/-- Witness for C2 at the concrete input with budget 0 and all other
fields absent. -/
theorem budget_zero_constrains_price_witness :
    ({ budget := some 0 } : QuizInput).budget = some 0 ∧
    ("price_usd", Constraint.lte 0) ∈ recommendQuery { budget := some 0 } :=
  ⟨rfl, budget_zero_constrains_price { budget := some 0 } rfl⟩

/-- C8: the `/test` handler is a total function of the database-handle
state and environment: for every handle state (absent, broken, or
available with a possibly-failing collection listing) it produces a
diagnostic object whose `collections` list has at most 10 entries and
whose other five fields are populated strings. -/
theorem test_database_total (db : DbHandle) (env : Env) :
    (test_database db env).collections.length ≤ 10 ∧
    (test_database db env).backend = "✅ Running" ∧
    (test_database db env).connection_status ∈ ["Connected", "Not Connected"] := by
  cases db with
  | noDb => refine ⟨by simp [test_database], rfl, by simp [test_database]⟩
  | broken e => refine ⟨by simp [test_database], rfl, by simp [test_database]⟩
  | available name colls =>
      cases colls with
      | ok cs =>
          refine ⟨?_, rfl, by simp [test_database]⟩
          simp [test_database]
      | error e => refine ⟨by simp [test_database], rfl, by simp [test_database]⟩

/-- C3: the quiz endpoint returns exactly the recommend result for a
preference with the same five fields. -/
theorem quiz_eq_recommend (p : Preference) (q : QuizInput) (s : Store)
    (he : q.energy = p.energy) (hn : q.preferred_nature = p.preferred_nature)
    (hb : q.budget = p.budget) (hd : q.duration = p.duration)
    (hg : q.goals = p.goals) :
    quiz p s = recommend q s := by
  cases p
  cases q
  simp only at he hn hb hd hg
  subst he hn hb hd hg
  rfl

/-- Witness for C3 at a concrete preference and its field-equal quiz
input. -/
theorem quiz_eq_recommend_witness :
    quiz { energy := some "calm", budget := some 50 } [] =
      recommend { energy := some "calm", budget := some 50 } [] :=
  quiz_eq_recommend { energy := some "calm", budget := some 50 }
    { energy := some "calm", budget := some 50 } [] rfl rfl rfl rfl rfl

/-- C4: the spirit message is chosen by exact match of `energy` against
the fixed four-entry table; `"calm"` yields the quoted string and any
value outside the four keys, absent included, yields the single generic
fallback. -/
theorem spirit_message_table (p : QuizInput) (s : Store) :
    (p.energy = some "calm" → (recommend p s).spirit_message =
      "The waters are still today; gentle breath and soft horizons call you.") ∧
    (p.energy = some "transformative" → (recommend p s).spirit_message =
      "Winds of change swirl around you; trust the metamorphosis.") ∧
    (p.energy = some "adventurous" → (recommend p s).spirit_message =
      "Peaks and tides await; your courage is the compass.") ∧
    (p.energy = some "restorative" → (recommend p s).spirit_message =
      "Let the earth hold you; sleep, nourish, and renew.") ∧
    (p.energy ∉ ([some "calm", some "transformative", some "adventurous",
        some "restorative"] : List (Option String)) →
      (recommend p s).spirit_message =
        "Nature listens. Share more, and I\u2019ll guide you further.") := by
  refine ⟨?_, ?_, ?_, ?_, ?_⟩ <;> intro h
  · simp [recommend, spiritNote, h]
  · simp [recommend, spiritNote, h]
  · simp [recommend, spiritNote, h]
  · simp [recommend, spiritNote, h]
  · simp only [List.mem_cons, List.mem_singleton, List.not_mem_nil] at h
    push_neg at h
    obtain ⟨h1, h2, h3, h4⟩ := h
    simp [recommend, spiritNote, h1, h2, h3, h4]

/-- Witness for C4: the calm input gets the quoted string and the
all-absent input gets the fallback. -/
theorem spirit_message_table_witness :
    (recommend { energy := some "calm" } []).spirit_message =
      "The waters are still today; gentle breath and soft horizons call you." ∧
    (recommend {} []).spirit_message =
      "Nature listens. Share more, and I\u2019ll guide you further." :=
  ⟨(spirit_message_table { energy := some "calm" } []).1 rfl,
   (spirit_message_table {} []).2.2.2.2 (by simp)⟩

/-- C5: `goals` never influences the result: two inputs agreeing on the
other four fields produce the same query and the same response. -/
theorem goals_noninterference (p1 p2 : QuizInput) (s : Store)
    (he : p1.energy = p2.energy)
    (hn : p1.preferred_nature = p2.preferred_nature)
    (hb : p1.budget = p2.budget) (hd : p1.duration = p2.duration) :
    recommendQuery p1 = recommendQuery p2 ∧ recommend p1 s = recommend p2 s := by
  cases p1
  cases p2
  simp only at he hn hb hd
  subst he hn hb hd
  exact ⟨rfl, rfl⟩

/-- Witness for C5: two concrete inputs differing only in `goals` give
the same response. -/
theorem goals_noninterference_witness :
    recommend { budget := some 0, goals := some "meditate deeper" } [] =
      recommend { budget := some 0, goals := none } [] :=
  (goals_noninterference { budget := some 0, goals := some "meditate deeper" }
    { budget := some 0, goals := none } [] rfl rfl rfl rfl).2

/-- C6: an out-of-range retreat body (duration outside [1,60] or a
negative price) is rejected by validation, so the store is untouched
and the handler is never invoked; an in-range body passes validation
and the create handler runs. -/
theorem retreat_validation_gate (r : Retreat) (s : Store) :
    ((r.duration_days < 1 ∨ 60 < r.duration_days ∨ r.price_usd < 0) →
      post_api_retreats r s = (s, false)) ∧
    ((1 ≤ r.duration_days ∧ r.duration_days ≤ 60 ∧ 0 ≤ r.price_usd) →
      post_api_retreats r s = (create_retreat r s, true)) := by
  constructor
  · intro h
    have hv : retreatValid r = false := by
      unfold retreatValid
      rcases h with h | h | h
      · have hnot : ¬(1 ≤ r.duration_days) := by omega
        simp [hnot]
      · have hnot : ¬(r.duration_days ≤ 60) := by omega
        simp [hnot]
      · have hnot : ¬(0 ≤ r.price_usd) := not_le.mpr h
        simp [hnot]
    simp [post_api_retreats, hv]
  · rintro ⟨h1, h2, h3⟩
    have hv : retreatValid r = true := by
      unfold retreatValid
      simp [h1, h2, h3]
    simp [post_api_retreats, hv]

/-- A concrete retreat body with `duration_days = 0`, outside the
validated range. -/
def zeroDayRetreat : Retreat :=
  { title := "t"
    host_name := "h"
    location_title := "l"
    nature_type := "forest"
    duration_days := 0
    price_usd := 10 }

/-- A concrete retreat body inside the validated range. -/
def weekRetreat : Retreat :=
  { title := "t"
    host_name := "h"
    location_title := "l"
    nature_type := "forest"
    duration_days := 7
    price_usd := 10 }

/-- Witness for C6: the concrete body with `duration_days = 0` leaves
the store unchanged, and the concrete in-range body reaches the
handler. -/
theorem retreat_validation_gate_witness :
    post_api_retreats zeroDayRetreat [] = ([], false) ∧
    post_api_retreats weekRetreat [] = (create_retreat weekRetreat [], true) :=
  ⟨(retreat_validation_gate zeroDayRetreat []).1 (Or.inl (by norm_num [zeroDayRetreat])),
   (retreat_validation_gate weekRetreat []).2
     ⟨by norm_num [weekRetreat], by norm_num [weekRetreat], by norm_num [weekRetreat]⟩⟩

/-- C7: listing retreats with a non-empty `nature_type` parameter
queries with the singleton equality filter, so every returned document
carries exactly that nature type; with no parameter the filter is
empty. -/
theorem list_retreats_nature_filter (v : String) (s : Store) (hv : v ≠ "") :
    (∀ d ∈ list_retreats (some v) s,
      lookupField d "nature_type" = some (Value.str v)) ∧
    list_retreats none s = get_documents "retreat" [] defaultLimit s := by
  constructor
  · intro d hd
    simp only [list_retreats, if_neg hv] at hd
    exact lookupField_of_docMatches_eq (docMatches_of_mem_get_documents hd)
  · rfl

/-- Witness for C7 on a concrete two-document store. -/
theorem list_retreats_nature_filter_witness :
    ("forest" : String) ≠ "" ∧
    ∀ d ∈ list_retreats (some "forest")
        [("retreat", [("nature_type", Value.str "forest")]),
         ("retreat", [("nature_type", Value.str "desert")])],
      lookupField d "nature_type" = some (Value.str "forest") :=
  ⟨by decide,
   (list_retreats_nature_filter "forest"
      [("retreat", [("nature_type", Value.str "forest")]),
       ("retreat", [("nature_type", Value.str "desert")])] (by decide)).1⟩

/-- C9: every endpoint either reads the store or appends at most one
new document through `create_document`, so any sequence of requests
only ever extends the store and every persisted document survives
unchanged in place. -/
theorem store_append_only :
    (∀ op s, ∃ t, t.length ≤ 1 ∧ step op s = s ++ t) ∧
    (∀ ops s, ∃ t, runOps ops s = s ++ t) :=
  ⟨step_extends, runOps_extends⟩

/-- C10: for both list endpoints, an empty-string query parameter is
truthiness-falsy, so it builds the same empty filter as an absent
parameter and returns the unfiltered collection. -/
theorem empty_param_same_as_absent (s : Store) :
    list_retreats (some "") s = list_retreats none s ∧
    list_messages (some "") s = list_messages none s := by
  constructor <;> rfl

end Sanctuary
